import Mathlib

/-!
Shallow embedding of `src/churn_app.py` (Customer Churn prediction app).

The app collects one value per feature from sidebar widgets, builds a
one-row DataFrame (`input_data`), encodes the four categorical columns
through a fixed lookup table (`input_data.replace(..., inplace=True)`,
lines 89-94), applies a pre-fitted MinMaxScaler to the 14 `scale_vars`
columns inside a try/except ValueError (lines 101-106), and on the
Predict button calls `model.predict_proba` and `model.predict` inside a
try/except Exception (lines 137-158).

Cell values are numbers or strings, modelled by `Value`; a one-row
DataFrame is a map from column name to cell, modelled by `Record`.
Rationals stand in for the Python floats. The pickled scaler and model
are opaque artifacts; they enter the embedding as parameters.
-/

namespace ChurnApp

/-- A cell of the one-row DataFrame: either a numeric value or a raw
string label. -/
inductive Value where
  | num (q : ℚ)
  | str (s : String)
deriving DecidableEq

/-- A one-row DataFrame: one cell per column name. -/
def Record : Type := String → Value

/-- Source lines 33-40: the 18 feature names, in order. -/
def feature_names : List String :=
  ["vintage", "age", "gender", "dependents", "occupation", "city",
   "customer_nw_category", "current_balance", "previous_month_end_balance",
   "average_monthly_balance_prevQ", "average_monthly_balance_prevQ2",
   "current_month_credit", "previous_month_credit", "current_month_debit",
   "previous_month_debit", "current_month_balance",
   "previous_month_balance", "days_since_last_transaction"]

/-- Source lines 43-49: the columns passed to the scaler. -/
def scale_vars : List String :=
  ["vintage", "age", "dependents", "current_balance", "previous_month_end_balance",
   "average_monthly_balance_prevQ", "average_monthly_balance_prevQ2",
   "current_month_credit", "previous_month_credit", "current_month_debit",
   "previous_month_debit", "current_month_balance",
   "previous_month_balance", "days_since_last_transaction"]

/-- Source line 90: the gender replacement mapping. -/
def genderTable : List (String × ℚ) := [("Male", 1), ("Female", 0)]

/-- Source line 91: the occupation replacement mapping. -/
def occupationTable : List (String × ℚ) :=
  [("salaried", 1), ("self-employed", 2), ("unemployed", 3)]

/-- Source line 92: the customer_nw_category replacement mapping. -/
def nwTable : List (String × ℚ) := [("1", 1), ("2", 2), ("3", 3)]

/-- Source line 93: the city replacement mapping. -/
def cityTable : List (String × ℚ) := [("1020", 1020), ("1030", 1030)]

/-- The per-column dictionary passed to `input_data.replace` (lines
89-94): categorical columns get their table, every other column gets no
replacements. -/
def encodingTables (f : String) : List (String × ℚ) :=
  if f = "gender" then genderTable
  else if f = "occupation" then occupationTable
  else if f = "customer_nw_category" then nwTable
  else if f = "city" then cityTable
  else []

/-- Association-list lookup, first match wins (as in a Python dict used
for replacement keys, which are distinct). -/
def lookupStr : List (String × ℚ) → String → Option ℚ
  | [], _ => none
  | (c, q) :: rest, f => if f = c then some q else lookupStr rest f

/-- Semantics of pandas `replace` on one cell: a string cell equal to a
key of the mapping becomes the mapped number; any other cell - a number,
or a string absent from the mapping - is left unchanged. -/
def encodeValue (table : List (String × ℚ)) (v : Value) : Value :=
  match v with
  | .num q => .num q
  | .str s =>
    match lookupStr table s with
    | some q => .num q
    | none => .str s

/-- The categorical-encoding step (lines 89-94): apply each column of
the replacement dictionary to the corresponding cell. -/
def encodeRecord (r : Record) : Record :=
  fun f => encodeValue (encodingTables f) (r f)

/-- Modelled from the spec: the fitted MinMaxScaler artifact
(`scaler.pkl`) is opaque; per the spec it maps each numeric cell of a
column to its min-max normalized value. A scaler is any per-column
numeric map. -/
def Scaler : Type := String → ℚ → ℚ

/-- The call `scaler.transform(input_data[scale_vars])`: reads the
listed columns in order; a numeric cell is transformed, a non-numeric
cell makes the conversion to a float array raise ValueError. -/
def scalerTransform (sc : Scaler) (r : Record) : List String → Except String (List (String × ℚ))
  | [] => .ok []
  | c :: rest =>
    match r c with
    | .num q =>
      match scalerTransform sc r rest with
      | .ok pairs => .ok ((c, sc c q) :: pairs)
      | .error e => .error e
    | .str s => .error ("could not convert string to float: " ++ s)

/-- The assignment `input_data_scaled[scale_vars] = ...` on the copy:
listed columns take their transformed value, all other columns keep the
value of the source record. -/
def updateCols (r : Record) (pairs : List (String × ℚ)) : Record :=
  fun f =>
    match lookupStr pairs f with
    | some q => .num q
    | none => r f

/-- Outcome of the scaling block (lines 101-106): the resulting
`input_data_scaled` or the `st.error` message followed by `st.stop`,
together with how many times `scaler.transform` was invoked. The
source calls `scaler.transform` unconditionally inside the try block,
so the count is 1 on both paths. -/
structure ScaleOutcome where
  result : Except String Record
  scalerCalls : ℕ

/-- Source lines 101-106: copy the record, transform the `scale_vars`
columns, and on ValueError surface the message and stop. -/
def applyScaling (sc : Scaler) (r : Record) : ScaleOutcome :=
  match scalerTransform sc r scale_vars with
  | .ok pairs =>
    { result := .ok (updateCols r pairs), scalerCalls := 1 }
  | .error e =>
    { result := .error ("Invalid input! Please check the values of your fields. Details: " ++ e),
      scalerCalls := 1 }

/-- The feature transform pipeline, lines 86-106 in source order: the
categorical encoding of lines 89-94 runs first, then the scaling block
of lines 101-106 runs on the encoded record. -/
def pipeline (sc : Scaler) (raw : Record) : ScaleOutcome :=
  applyScaling sc (encodeRecord raw)

/-- True on a numeric cell. -/
def isNum : Value → Bool
  | .num _ => true
  | .str _ => false

/-- True when the scaling block produced a record. -/
def isOk : Except String Record → Bool
  | .ok _ => true
  | .error _ => false

/-- The record a successful scaling block produced (a fixed dummy on
the error path, used only to state concrete facts about success). -/
def resultRecord (o : ScaleOutcome) : Record :=
  match o.result with
  | .ok r => r
  | .error _ => fun _ => .num 0

/-- Source lines 58-66: the default values of every input widget, as
the RawRecord the collector produces before any user edit. -/
def defaultRecord : Record := fun f =>
  if f = "vintage" then .num 60
  else if f = "age" then .num 35
  else if f = "gender" then .str "Male"
  else if f = "dependents" then .num 2
  else if f = "occupation" then .str "salaried"
  else if f = "city" then .str "1020"
  else if f = "customer_nw_category" then .str "1"
  else if f = "current_balance" then .num 50000
  else if f = "previous_month_end_balance" then .num 45000
  else if f = "average_monthly_balance_prevQ" then .num 42000
  else if f = "average_monthly_balance_prevQ2" then .num 40000
  else if f = "current_month_credit" then .num 15000
  else if f = "previous_month_credit" then .num 13000
  else if f = "current_month_debit" then .num 12000
  else if f = "previous_month_debit" then .num 11000
  else if f = "current_month_balance" then .num 40000
  else if f = "previous_month_balance" then .num 43000
  else if f = "days_since_last_transaction" then .num 30
  else .num 0

/-- Overwrite one cell of a record (a test-harness helper standing for
a user editing one widget value). -/
def setField (r : Record) (f : String) (v : Value) : Record :=
  fun g => if g = f then v else r g

/-- A concrete scaler instance used for closed evaluations. -/
def idScaler : Scaler := fun _ q => q

/-!
State view of the transform pipeline for the mutation claims.

`input_data.replace(..., inplace=True)` (lines 89-94) modifies the
DataFrame that the variable `input_data` names: after line 94 the one
binding that held the RawRecord holds the encoded record instead.
`input_data_scaled = input_data.copy()` (line 102) creates a fresh
record; line 103 assigns the transformed columns into that copy, so
`input_data` is untouched by the scaling block.
-/

/-- The mutable program state of the transform pipeline: the DataFrame
named `input_data`. -/
structure PState where
  input_data : Record

/-- Source lines 89-94, `replace` with `inplace=True`: the encoded
record is stored back into `input_data`, overwriting the RawRecord. -/
def encodingStep (s : PState) : PState :=
  { input_data := encodeRecord s.input_data }

/-- Source lines 101-106: transform the `scale_vars` columns of
`input_data` into a copy. On success the state (first component) is
returned alongside the new record `input_data_scaled`; on ValueError
the message is surfaced and the request stops. -/
def scalingStep (sc : Scaler) (s : PState) : Except String (PState × Record) :=
  match scalerTransform sc s.input_data scale_vars with
  | .ok pairs => .ok (s, updateCols s.input_data pairs)
  | .error e => .error ("Invalid input! Please check the values of your fields. Details: " ++ e)

/-!
Scorer (source lines 137-158). The pickled XGBoost model is an opaque
artifact; it enters as a `Model` value whose operations may raise (any
exception is modelled as an error value carrying its message).
-/

/-- Modelled from the spec: the classifier artifact
(`best_xgboost_model.pkl`) is opaque. Its two operations used by the
app: `predict_proba(X)[0]`, a pair (probability of class 0, probability
of class 1), and `predict(X)[0]`, a class index; either call may raise,
carrying a message. -/
structure Model where
  predict_proba : Record → Except String (ℚ × ℚ)
  predict : Record → Except String ℕ

/-- What the Predict handler renders on success: the mapped label
(line 144) and the two probabilities displayed on lines 148-149. -/
structure PredictionResult where
  label : String
  p_retain : ℚ
  p_churn : ℚ
deriving DecidableEq

/-- Outcome of one press of the Predict button: a rendered prediction,
or the `st.error` message of the except-branch on line 158. -/
inductive RenderResult where
  | rendered (r : PredictionResult)
  | failed (msg : String)
deriving DecidableEq

/-- Source lines 137-158: call `predict_proba` then `predict` inside
try/except; map class index 1 to the label Churned, anything else to
Retained; display retention probability `probabilities[0]` and churn
probability `probabilities[1]`; on any exception render the error
message with the original text attached. -/
def predictHandler (m : Model) (x : Record) : RenderResult :=
  match m.predict_proba x with
  | .error e => .failed (" Error in prediction: " ++ e)
  | .ok probabilities =>
    match m.predict x with
    | .error e => .failed (" Error in prediction: " ++ e)
    | .ok prediction =>
      .rendered
        { label := if prediction = 1 then "Churned" else "Retained",
          p_retain := probabilities.1,
          p_churn := probabilities.2 }

/-- Modelled from the spec: the artifact behind `predict_proba` returns
a 2-element probability distribution summing to 1.0. -/
def IsDistModel (m : Model) : Prop :=
  ∀ x p, m.predict_proba x = .ok p → p.1 + p.2 = 1

/-!
Collector option sets (source lines 70-83). The four categorical
features are collected through closed selectboxes; the 14 `scale_vars`
features through numeric inputs, so their cells are always numeric.
-/

/-- Source line 75: the gender selectbox options. -/
def genderOptions : List String := ["Male", "Female"]

/-- Source line 77: the occupation selectbox options. -/
def occupationOptions : List String := ["salaried", "self-employed", "unemployed"]

/-- Source line 79: the customer_nw_category selectbox options. -/
def nwOptions : List String := ["1", "2", "3"]

/-- Source line 81: the city selectbox options. -/
def cityOptions : List String := ["1020", "1030"]

/-- A record the collector can produce: each categorical cell is one of
the selectbox options of its feature. -/
def collectorValid (r : Record) : Prop :=
  (∃ s, s ∈ genderOptions ∧ r "gender" = .str s) ∧
  (∃ s, s ∈ occupationOptions ∧ r "occupation" = .str s) ∧
  (∃ s, s ∈ nwOptions ∧ r "customer_nw_category" = .str s) ∧
  (∃ s, s ∈ cityOptions ∧ r "city" = .str s)

/-!
Concrete instances used for closed evaluations.
-/

/-- The default record with the city widget holding a code outside the
city table. -/
def badCityRecord : Record := setField defaultRecord "city" (.str "9999")

/-- The default record with a non-numeric value in the scaled field
age. -/
def badAgeRecord : Record := setField defaultRecord "age" (.str "abc")

/-- A concrete well-behaved model instance. -/
def okModel : Model :=
  { predict_proba := fun _ => .ok (1/4, 3/4), predict := fun _ => .ok 1 }

/-- A concrete model whose class prediction disagrees with the larger
of its two reported probabilities. -/
def skewModel : Model :=
  { predict_proba := fun _ => .ok (9/10, 1/10), predict := fun _ => .ok 1 }

/-- A model with the same `predict` as `skewModel` but different
probabilities. -/
def skewModelAlt : Model :=
  { predict_proba := fun _ => .ok (1/2, 1/2), predict := fun _ => .ok 1 }

/-- A concrete model whose probability call raises. -/
def failModel : Model :=
  { predict_proba := fun _ => .error "boom", predict := fun _ => .ok 0 }

/-- The scaled record the pipeline produces from the default inputs
under the concrete scaler. -/
def scaledDefault : Record := resultRecord (pipeline idScaler defaultRecord)

/-- The pipeline state after the encoding step on the default record. -/
def encDefaultState : PState := encodingStep (PState.mk defaultRecord)

/-- The state and scaled record the scaling step produces from
`encDefaultState` under the concrete scaler. -/
def scalingOutDefault : PState × Record :=
  match scalingStep idScaler encDefaultState with
  | .ok out => out
  | .error _ => (encDefaultState, defaultRecord)

/-!
Helper lemmas.
-/

lemma scalerTransform_keys (sc : Scaler) (r : Record) :
    ∀ (cols : List String) (pairs : List (String × ℚ)),
      scalerTransform sc r cols = .ok pairs → pairs.map Prod.fst = cols := by
  intro cols
  induction cols with
  | nil =>
    intro pairs h
    simp only [scalerTransform] at h
    cases h
    rfl
  | cons c rest ih =>
    intro pairs h
    simp only [scalerTransform] at h
    cases hc : r c with
    | num q =>
      rw [hc] at h
      cases hrest : scalerTransform sc r rest with
      | ok ps =>
        rw [hrest] at h
        cases h
        simpa using ih ps hrest
      | error e =>
        rw [hrest] at h
        cases h
    | str s =>
      rw [hc] at h
      cases h

lemma lookupStr_eq_none (pairs : List (String × ℚ)) (f : String)
    (h : f ∉ pairs.map Prod.fst) : lookupStr pairs f = none := by
  induction pairs with
  | nil => rfl
  | cons p rest ih =>
    simp only [List.map_cons, List.mem_cons] at h
    push_neg at h
    obtain ⟨h1, h2⟩ := h
    cases p with
    | mk c q =>
      simp only [lookupStr]
      rw [if_neg h1]
      exact ih h2

lemma lookupStr_isSome (pairs : List (String × ℚ)) (f : String)
    (h : f ∈ pairs.map Prod.fst) : ∃ q, lookupStr pairs f = some q := by
  induction pairs with
  | nil => simp at h
  | cons p rest ih =>
    cases p with
    | mk c q =>
      simp only [List.map_cons, List.mem_cons] at h
      by_cases hf : f = c
      · exact ⟨q, by simp [lookupStr, hf]⟩
      · simp only [lookupStr]
        rw [if_neg hf]
        exact ih (h.resolve_left hf)

lemma scalerTransform_congr (sc : Scaler) (r₁ r₂ : Record) :
    ∀ (cols : List String), (∀ f, f ∈ cols → r₁ f = r₂ f) →
      scalerTransform sc r₁ cols = scalerTransform sc r₂ cols := by
  intro cols
  induction cols with
  | nil => intro _; rfl
  | cons c rest ih =>
    intro h
    simp only [scalerTransform]
    rw [h c (List.mem_cons_self c rest), ih (fun f hf => h f (List.mem_cons_of_mem c hf))]

lemma scalerTransform_error_of_str (sc : Scaler) (r : Record) :
    ∀ (cols : List String) (f s : String), f ∈ cols → r f = .str s →
      ∃ msg, scalerTransform sc r cols = .error msg := by
  intro cols
  induction cols with
  | nil => intro f s hf; simp at hf
  | cons c rest ih =>
    intro f s hf hv
    rcases List.mem_cons.mp hf with hfc | hfr
    · subst hfc
      exact ⟨_, by simp only [scalerTransform]; rw [hv]⟩
    · cases hc : r c with
      | num q =>
        obtain ⟨msg, hmsg⟩ := ih f s hfr hv
        refine ⟨msg, ?_⟩
        simp only [scalerTransform]
        rw [hc, hmsg]
      | str s2 =>
        exact ⟨_, by simp only [scalerTransform]; rw [hc]⟩

lemma encodingTables_scale_var (f : String) (hf : f ∈ scale_vars) :
    encodingTables f = [] := by
  fin_cases hf <;> rfl

lemma encodeRecord_scale_var (raw : Record) (f : String) (hf : f ∈ scale_vars) :
    encodeRecord raw f = raw f := by
  show encodeValue (encodingTables f) (raw f) = raw f
  rw [encodingTables_scale_var f hf]
  cases raw f <;> rfl

lemma applyScaling_calls (sc : Scaler) (r : Record) :
    (applyScaling sc r).scalerCalls = 1 := by
  unfold applyScaling
  cases scalerTransform sc r scale_vars <;> rfl

lemma encodeValue_of_lookup_none (table : List (String × ℚ)) (s : String)
    (h : lookupStr table s = none) : encodeValue table (.str s) = .str s := by
  simp [encodeValue, h]

/-!
Claim theorems.
-/

/-- C1, counterexample: with the city cell holding the unknown code
9999, the encoding leaves the raw string in place, the pipeline
succeeds (no UnknownCategory failure), the scaler is invoked, and the
record that reaches scoring still carries the raw string - contradicting
the claim that the pipeline fails with UnknownCategory and performs no
scaling for such a request. -/
theorem unknown_category_silent_pass :
    encodeRecord badCityRecord "city" = .str "9999" ∧
    isOk (pipeline idScaler badCityRecord).result = true ∧
    resultRecord (pipeline idScaler badCityRecord) "city" = .str "9999" ∧
    (pipeline idScaler badCityRecord).scalerCalls = 1 := by
  refine ⟨by decide, by decide, by decide, by decide⟩

/-- C1, amended: a raw categorical value with no entry in its
replacement table is left unchanged by the encoding step (pandas
replace pass-through; no UnknownCategory error exists in the code), and
the scaling block still invokes the scaler exactly once. -/
theorem unknown_category_passthrough (sc : Scaler) (raw : Record) (f s : String)
    (hv : raw f = .str s) (hl : lookupStr (encodingTables f) s = none) :
    encodeRecord raw f = .str s ∧ (pipeline sc raw).scalerCalls = 1 := by
  constructor
  · show encodeValue (encodingTables f) (raw f) = .str s
    rw [hv]
    exact encodeValue_of_lookup_none _ _ hl
  · exact applyScaling_calls sc (encodeRecord raw)

/-- C1, witness for the amended theorem at the concrete unknown city
code 9999. -/
theorem unknown_category_passthrough_witness :
    encodeRecord badCityRecord "city" = .str "9999" ∧
    (pipeline idScaler badCityRecord).scalerCalls = 1 :=
  unknown_category_passthrough idScaler badCityRecord "city" "9999" rfl rfl

/-- C2: every raw categorical value of the fixed option sets is encoded
to exactly the documented integer code by the replacement tables of
lines 89-94. -/
theorem encoding_codes_exact :
    encodeValue (encodingTables "gender") (.str "Male") = .num 1 ∧
    encodeValue (encodingTables "gender") (.str "Female") = .num 0 ∧
    encodeValue (encodingTables "occupation") (.str "salaried") = .num 1 ∧
    encodeValue (encodingTables "occupation") (.str "self-employed") = .num 2 ∧
    encodeValue (encodingTables "occupation") (.str "unemployed") = .num 3 ∧
    encodeValue (encodingTables "customer_nw_category") (.str "1") = .num 1 ∧
    encodeValue (encodingTables "customer_nw_category") (.str "2") = .num 2 ∧
    encodeValue (encodingTables "customer_nw_category") (.str "3") = .num 3 ∧
    encodeValue (encodingTables "city") (.str "1020") = .num 1020 ∧
    encodeValue (encodingTables "city") (.str "1030") = .num 1030 := by
  decide

/-- C3: when the Predict handler renders a result and the model
artifact reports a probability distribution (its two entries sum to 1),
the rendered label is Churned exactly when the class prediction is 1,
and the two reported probabilities sum to 1 within 1e-6. -/
theorem scorer_label_and_distribution (m : Model) (x : Record) (res : PredictionResult)
    (hm : IsDistModel m) (h : predictHandler m x = .rendered res) :
    (res.label = "Churned" ↔ m.predict x = .ok 1) ∧
    |res.p_retain + res.p_churn - 1| ≤ 1 / 1000000 := by
  unfold predictHandler at h
  cases hpp : m.predict_proba x with
  | error e => rw [hpp] at h; cases h
  | ok p =>
    rw [hpp] at h
    cases hp : m.predict x with
    | error e => rw [hp] at h; cases h
    | ok prediction =>
      rw [hp] at h
      cases h
      refine ⟨?_, ?_⟩
      · by_cases h1 : prediction = 1
        · subst h1
          simp
        · simp only [if_neg h1]
          constructor
          · intro hlab
            exact absurd hlab (by decide)
          · intro hok
            simp only [Except.ok.injEq] at hok
            exact absurd hok h1
      · have hsum := hm x p hpp
        show |p.1 + p.2 - 1| ≤ 1 / 1000000
        rw [hsum]
        norm_num

/-- C3, witness at a concrete distribution model. -/
theorem scorer_label_and_distribution_witness :
    ((PredictionResult.mk "Churned" (1/4) (3/4)).label = "Churned" ↔
      okModel.predict defaultRecord = .ok 1) ∧
    |(PredictionResult.mk "Churned" (1/4) (3/4)).p_retain +
      (PredictionResult.mk "Churned" (1/4) (3/4)).p_churn - 1| ≤ 1 / 1000000 :=
  scorer_label_and_distribution okModel defaultRecord (PredictionResult.mk "Churned" (1/4) (3/4))
    (fun x p hp => by cases hp; norm_num) rfl

/-- C4, counterexample: the handler computes the label from a separate
`model.predict` call; with a model whose class prediction is 1 while
its reported retention probability 9/10 exceeds its churn probability
1/10, the rendered label is Churned yet the higher reported probability
belongs to the other class - the disagreement the claim says can never
happen. -/
theorem label_probability_disagreement :
    predictHandler skewModel defaultRecord =
      .rendered (PredictionResult.mk "Churned" (9/10) (1/10)) ∧
    (9 : ℚ)/10 > 1/10 := by
  exact ⟨rfl, by norm_num⟩

/-- C4, amended: the rendered label is derived from the `model.predict`
call alone, independently of the `predict_proba` output: two models
with the same `predict` yield the same label whatever their
probabilities; agreement of the label with the larger probability is a
property of the model artifact, not enforced by the handler. -/
theorem label_independent_of_probabilities (m₁ m₂ : Model) (x : Record)
    (r₁ r₂ : PredictionResult) (hp : m₁.predict = m₂.predict)
    (h₁ : predictHandler m₁ x = .rendered r₁)
    (h₂ : predictHandler m₂ x = .rendered r₂) :
    r₁.label = r₂.label := by
  unfold predictHandler at h₁ h₂
  cases hpp₁ : m₁.predict_proba x with
  | error e => rw [hpp₁] at h₁; cases h₁
  | ok p₁ =>
    rw [hpp₁] at h₁
    cases hpp₂ : m₂.predict_proba x with
    | error e => rw [hpp₂] at h₂; cases h₂
    | ok p₂ =>
      rw [hpp₂] at h₂
      rw [hp] at h₁
      cases hpred : m₂.predict x with
      | error e => rw [hpred] at h₁ h₂; cases h₁
      | ok prediction =>
        rw [hpred] at h₁ h₂
        cases h₁
        cases h₂
        rfl

/-- C4, witness for the amended theorem at two concrete models sharing
`predict`. -/
theorem label_independent_of_probabilities_witness :
    (PredictionResult.mk "Churned" (9/10) (1/10)).label =
      (PredictionResult.mk "Churned" (1/2) (1/2)).label :=
  label_independent_of_probabilities skewModel skewModelAlt defaultRecord
    (PredictionResult.mk "Churned" (9/10) (1/10))
    (PredictionResult.mk "Churned" (1/2) (1/2)) rfl rfl rfl

/-- C5, counterexample: with age holding the string abc, the pipeline
does fail, but the failure is the ValueError raised inside the invoked
`scaler.transform` call and caught by the except-branch: the scaler is
invoked (call count 1, not 0), contradicting the claim that detection
happens prior to any scaler call. -/
theorem nonnumeric_error_from_scaler_call :
    (pipeline idScaler badAgeRecord).result =
      .error "Invalid input! Please check the values of your fields. Details: could not convert string to float: abc" ∧
    (pipeline idScaler badAgeRecord).scalerCalls = 1 := by
  exact ⟨rfl, by decide⟩

/-- C5, amended: a non-numeric value in a Scaled field makes the
pipeline fail before scoring, but the failure is produced by the
ValueError that the invoked `scaler.transform` raises and the
try/except catches - the scaler call does happen. -/
theorem nonnumeric_scaled_field_fails (sc : Scaler) (raw : Record) (f s : String)
    (hf : f ∈ scale_vars) (hv : raw f = .str s) :
    isOk (pipeline sc raw).result = false ∧ (pipeline sc raw).scalerCalls = 1 := by
  have henc : encodeRecord raw f = .str s := by
    rw [encodeRecord_scale_var raw f hf, hv]
  obtain ⟨msg, hmsg⟩ :=
    scalerTransform_error_of_str sc (encodeRecord raw) scale_vars f s hf henc
  constructor
  · show isOk (applyScaling sc (encodeRecord raw)).result = false
    unfold applyScaling
    rw [hmsg]
    rfl
  · exact applyScaling_calls sc (encodeRecord raw)

/-- C5, witness for the amended theorem at age = abc. -/
theorem nonnumeric_scaled_field_fails_witness :
    isOk (pipeline idScaler badAgeRecord).result = false ∧
    (pipeline idScaler badAgeRecord).scalerCalls = 1 :=
  nonnumeric_scaled_field_fails idScaler badAgeRecord "age" "abc" (by decide) rfl

/-- C6: the pipeline is the scaling block applied to the output of the
encoding step (source order, lines 89-94 before lines 101-106); the
scaler call reads only the `scale_vars` cells of the record it is
given, and no categorical feature is among `scale_vars`, so the scaler
is never applied to raw categorical labels. -/
theorem encode_then_scale_order :
    (∀ (sc : Scaler) (raw : Record), pipeline sc raw = applyScaling sc (encodeRecord raw)) ∧
    (∀ (sc : Scaler) (r₁ r₂ : Record), (∀ f, f ∈ scale_vars → r₁ f = r₂ f) →
      scalerTransform sc r₁ scale_vars = scalerTransform sc r₂ scale_vars) ∧
    ("gender" ∉ scale_vars ∧ "occupation" ∉ scale_vars ∧
      "customer_nw_category" ∉ scale_vars ∧ "city" ∉ scale_vars) :=
  ⟨fun _ _ => rfl,
   fun sc r₁ r₂ h => scalerTransform_congr sc r₁ r₂ scale_vars h,
   by decide⟩

/-- C6, witness: changing only the categorical gender cell does not
change what the scaler computes. -/
theorem encode_then_scale_order_witness :
    scalerTransform idScaler defaultRecord scale_vars =
      scalerTransform idScaler (setField defaultRecord "gender" (.str "zzz")) scale_vars := by
  apply encode_then_scale_order.2.1
  intro f hf
  fin_cases hf <;> rfl

/-- C7: a successful scaling block touches exactly the 14 `scale_vars`
columns - those become numeric - and every other column of the record
(in particular the four encoded categorical columns) keeps its value. -/
theorem scaling_frame (sc : Scaler) (r : Record) (scaled : Record)
    (h : (applyScaling sc r).result = .ok scaled) :
    scale_vars.length = 14 ∧
    (∀ f, f ∉ scale_vars → scaled f = r f) ∧
    (∀ f, f ∈ scale_vars → isNum (scaled f) = true) := by
  cases hst : scalerTransform sc r scale_vars with
  | error e =>
    unfold applyScaling at h
    rw [hst] at h
    cases h
  | ok pairs =>
    unfold applyScaling at h
    rw [hst] at h
    have hsc : scaled = updateCols r pairs := by
      cases h
      rfl
    subst hsc
    have hkeys := scalerTransform_keys sc r scale_vars pairs hst
    refine ⟨by decide, ?_, ?_⟩
    · intro f hf
      have : f ∉ pairs.map Prod.fst := by rw [hkeys]; exact hf
      show updateCols r pairs f = r f
      unfold updateCols
      rw [lookupStr_eq_none pairs f this]
    · intro f hf
      have : f ∈ pairs.map Prod.fst := by rw [hkeys]; exact hf
      obtain ⟨q, hq⟩ := lookupStr_isSome pairs f this
      show isNum (updateCols r pairs f) = true
      unfold updateCols
      rw [hq]
      rfl

/-- C7, witness at the default inputs under the concrete scaler. -/
theorem scaling_frame_witness :
    scale_vars.length = 14 ∧
    scaledDefault "gender" = encodeRecord defaultRecord "gender" ∧
    isNum (scaledDefault "age") = true := by
  have h : (applyScaling idScaler (encodeRecord defaultRecord)).result = .ok scaledDefault := rfl
  exact ⟨(scaling_frame idScaler (encodeRecord defaultRecord) scaledDefault h).1,
    (scaling_frame idScaler (encodeRecord defaultRecord) scaledDefault h).2.1 "gender" (by decide),
    (scaling_frame idScaler (encodeRecord defaultRecord) scaledDefault h).2.2 "age" (by decide)⟩

/-- C8, counterexample: the encoding step stores the encoded record
back into the `input_data` binding (`replace` with `inplace=True`,
lines 89-94): after the step the cell that held the raw label Male
holds the integer 1, so the RawRecord handed to the pipeline is
mutated, contradicting its claimed immutability. -/
theorem raw_record_mutated_in_place :
    (encodingStep (PState.mk defaultRecord)).input_data "gender" = .num 1 ∧
    defaultRecord "gender" = .str "Male" := by
  decide

/-- C8, amended: the encoding step mutates the RawRecord in place
(`input_data` is overwritten with the encoded record), while the
scaling step does not mutate its input: it writes the transformed
columns into a copy and returns the state unchanged. -/
theorem scaling_step_no_mutation (sc : Scaler) (s : PState) (out : PState × Record)
    (h : scalingStep sc s = .ok out) :
    out.1 = s ∧ (encodingStep s).input_data = encodeRecord s.input_data := by
  cases hst : scalerTransform sc s.input_data scale_vars with
  | error e =>
    unfold scalingStep at h
    rw [hst] at h
    cases h
  | ok pairs =>
    unfold scalingStep at h
    rw [hst] at h
    cases h
    exact ⟨rfl, rfl⟩

/-- C8, witness for the amended theorem at the default inputs. -/
theorem scaling_step_no_mutation_witness :
    scalingOutDefault.1 = encDefaultState :=
  (scaling_step_no_mutation idScaler encDefaultState scalingOutDefault rfl).1

/-- C9: any exception raised by the model operations inside the Predict
handler is caught and rendered as a failure message carrying the
original exception text; the handler always returns a render outcome
rather than propagating. -/
theorem scoring_exception_caught (m : Model) (x : Record) (e : String)
    (h : m.predict_proba x = .error e ∨
      ∃ p, m.predict_proba x = .ok p ∧ m.predict x = .error e) :
    predictHandler m x = .failed (" Error in prediction: " ++ e) := by
  rcases h with h | ⟨p, h1, h2⟩
  · unfold predictHandler
    rw [h]
  · unfold predictHandler
    rw [h1, h2]

/-- C9, witness at a concrete raising model. -/
theorem scoring_exception_caught_witness :
    predictHandler failModel defaultRecord = .failed " Error in prediction: boom" :=
  scoring_exception_caught failModel defaultRecord "boom" (Or.inl rfl)

/-- C10: each categorical selectbox option list is exactly the key set
of the corresponding replacement table, so every record the collector
can produce has all four categorical cells encoded to integers - the
pass-through branch for unknown categories is unreachable from the
form. -/
theorem collector_options_match_tables (r : Record) (h : collectorValid r) :
    (genderOptions = genderTable.map Prod.fst ∧
     occupationOptions = occupationTable.map Prod.fst ∧
     nwOptions = nwTable.map Prod.fst ∧
     cityOptions = cityTable.map Prod.fst) ∧
    (isNum (encodeRecord r "gender") = true ∧
     isNum (encodeRecord r "occupation") = true ∧
     isNum (encodeRecord r "customer_nw_category") = true ∧
     isNum (encodeRecord r "city") = true) := by
  obtain ⟨⟨s1, hs1, hv1⟩, ⟨s2, hs2, hv2⟩, ⟨s3, hs3, hv3⟩, ⟨s4, hs4, hv4⟩⟩ := h
  refine ⟨by decide, ?_, ?_, ?_, ?_⟩
  · show isNum (encodeValue (encodingTables "gender") (r "gender")) = true
    rw [hv1]
    fin_cases hs1 <;> decide
  · show isNum (encodeValue (encodingTables "occupation") (r "occupation")) = true
    rw [hv2]
    fin_cases hs2 <;> decide
  · show isNum (encodeValue (encodingTables "customer_nw_category") (r "customer_nw_category")) = true
    rw [hv3]
    fin_cases hs3 <;> decide
  · show isNum (encodeValue (encodingTables "city") (r "city")) = true
    rw [hv4]
    fin_cases hs4 <;> decide

/-- C10, witness at the default collector output. -/
theorem collector_options_match_tables_witness :
    (genderOptions = genderTable.map Prod.fst ∧
     occupationOptions = occupationTable.map Prod.fst ∧
     nwOptions = nwTable.map Prod.fst ∧
     cityOptions = cityTable.map Prod.fst) ∧
    (isNum (encodeRecord defaultRecord "gender") = true ∧
     isNum (encodeRecord defaultRecord "occupation") = true ∧
     isNum (encodeRecord defaultRecord "customer_nw_category") = true ∧
     isNum (encodeRecord defaultRecord "city") = true) :=
  collector_options_match_tables defaultRecord
    ⟨⟨"Male", by decide, rfl⟩, ⟨"salaried", by decide, rfl⟩,
     ⟨"1", by decide, rfl⟩, ⟨"1020", by decide, rfl⟩⟩

end ChurnApp
